import Mathlib

/-!
Shallow embedding of the parallel DynamoDB table-purge tool
(src/purge-dynamodb-table/index.ts) and a verification of its claimed
properties.

Modelling conventions, fixed once:

* An item key (one DynamoDB key-attribute map) is abstracted as a `Nat`.
* The store is an oracle: `keySchema` is the `DescribeTable` response's
  `Table.KeySchema` (`none` when absent), `pages s` is the list of
  successive `Scan` responses (item lists, in cursor order) for segment
  `s`, and `oracle s p c a` is the store's answer to the `a`-th
  `BatchWriteItem` attempt for chunk `c` of page `p` of segment `s`.
* The mutable map `unprocessedItems : { tableName: WriteRequest[] }` is
  modelled as `Option (List Key)`: `none` is the empty map `{}` and
  `some l` is the singleton map holding `l` for the table.  A response
  whose `UnprocessedItems` is absent or `{}` is modelled as `.ok []`; a
  response carrying a non-empty list for the table is `.ok l`.  (A map
  holding an empty list for the table is never produced by DynamoDB and
  is not modelled.)
* The statement `stats.deleted += deleteRequests.length -
  (resp.UnprocessedItems?.[tableName]?.length || 0)` is translated
  literally: the minuend is the length of the ORIGINAL `deleteRequests`
  of the batch, constant across all retries of that batch.
* The `while (Object.keys(unprocessedItems).length > 0 && retries <
  MAX_RETRIES)` loop increments `retries` on every continuing iteration,
  so the remaining budget `MAX_RETRIES - retries` strictly decreases; we
  pass that budget explicitly (`batchLoopGo`) so the recursion is
  structural.  The guard `budget = 0` at a loop head is exactly the
  source guard `retries < MAX_RETRIES` failing, because the budget is
  `MAX_RETRIES - retries` at every call.
* `Promise.all` over the segment workers: each worker drives its own
  disjoint segment (the only shared object is the counter record), the
  joint wait fails iff some worker threw, and the summary code after the
  `await` runs only when none threw.  The model therefore evaluates
  every segment and reports `nonRetryableStoreError` when any segment
  aborted.
* Wall-clock data (`startTime`, elapsed seconds, rate) and console text
  are not modelled.  `FinalSummary` holds exactly the run-derived
  counter the summary prints (`Total items deleted`); recorded backoff
  delays (the `setTimeout` arguments, in ms) are collected in a list in
  chronological order.
* The instrumentation fields (`scanCalls`, `deleteCalls`, `attempts`,
  `delays`, `leftovers`) are ghost observables counting the network
  calls issued and recording what each retry loop left unprocessed; the
  source drops the leftover keys, so no code variable corresponds to
  `leftovers` -- it records the history of the run, not program state.
-/

namespace Purge

/-- Abstract item key: stands for one key-attribute map of the table. -/
abbrev Key := Nat

/-- `SCAN_LIMIT` of the source: page-size limit passed to `Scan`.  Pages
are modelled directly by their contents, so the constant is inert here. -/
def SCAN_LIMIT : Nat := 100

/-- `MAX_RETRIES` of the source. -/
def MAX_RETRIES : Nat := 5

/-- `BATCH_SIZE` of the source (DynamoDB `BatchWriteItem` limit). -/
def BATCH_SIZE : Nat := 25

/-- `BACKOFF_BASE_MS` of the source. -/
def BACKOFF_BASE_MS : Nat := 100

/-- One element of the raw `KeySchema` list of the `DescribeTable`
response.  The source reads `key.AttributeName!` and casts `key.KeyType`
to the string union `"HASH" | "RANGE"`; both are plain strings at
runtime. -/
structure KeySchemaElement where
  AttributeName : String
  KeyType : String
  deriving Repr, DecidableEq

/-- `TableKey` of the source. -/
structure TableKey where
  attributeName : String
  keyType : String
  deriving Repr, DecidableEq

/-- `PurgeStats` of the source.  `startTime` is kept for shape but is
inert (wall-clock time is not modelled). -/
structure PurgeStats where
  scanned : Nat
  deleted : Nat
  startTime : Nat
  deriving Repr, DecidableEq

/-- Error taxonomy of the run: the schema-unavailable throw of
`getTableKeys`, and any store error other than
`ProvisionedThroughputExceededException` rethrown by the delete loop. -/
inductive PurgeError where
  | schemaUnavailable
  | nonRetryableStoreError
  deriving Repr, DecidableEq

/-- `getTableKeys` of the source, as a function of the `DescribeTable`
response: absent `KeySchema` throws, otherwise each element is mapped to
a `TableKey` in order.  (An empty `KeySchema` array is truthy in JS and
is therefore mapped, not thrown.) -/
def getTableKeys (keySchema : Option (List KeySchemaElement)) :
    Except PurgeError (List TableKey) :=
  match keySchema with
  | none => .error .schemaUnavailable
  | some ks =>
      .ok (ks.map fun k => { attributeName := k.AttributeName, keyType := k.KeyType })

/-- Store response to one `BatchWriteItem` call: a normal response with
its unprocessed keys, the distinguished throttling exception
(`ProvisionedThroughputExceededException`), or any other (non-retryable)
error. -/
inductive BatchResp where
  | ok (unprocessed : List Key)
  | throttled
  | nonRetryable
  deriving Repr, DecidableEq

/-- Result of one iteration of the retry loop body: the new
`unprocessedItems` map, the new `retries` value, the amount added to
`stats.deleted`, and the recorded backoff delay (ms), if any; or the
rethrow of a non-retryable error. -/
inductive StepRes where
  | next (unprocessedItems : Option (List Key)) (retries : Nat)
      (deletedAdd : Nat) (delay : Option Nat)
  | thrown
  deriving Repr, DecidableEq

/-- One iteration of the source's retry loop body, given the original
batch length `origLen` (the constant `deleteRequests.length`), the list
`l` currently held by `unprocessedItems`, the current `retries`, and the
store's response to the `BatchWriteItem` call. -/
def loopBody (origLen : Nat) (l : List Key) (retries : Nat) : BatchResp → StepRes
  | .ok u =>
      if u.isEmpty then
        .next none retries (origLen - u.length) none
      else
        .next (some u) (retries + 1) (origLen - u.length)
          (some (2 ^ (retries + 1) * BACKOFF_BASE_MS))
  | .throttled =>
      .next (some l) (retries + 1) 0 (some (2 ^ (retries + 1) * BACKOFF_BASE_MS))
  | .nonRetryable => .thrown

/-- How a batch's retry loop ended: normally, with the final contents of
the `unprocessedItems` map (`none` = emptied, `some l` = retries
exhausted with `l` still unprocessed), or by rethrowing a non-retryable
error. -/
inductive LoopEnd where
  | done (unprocessedItems : Option (List Key))
  | errored
  deriving Repr, DecidableEq

/-- Aggregate observables of one batch's retry loop. -/
structure BatchResult where
  deletedAdd : Nat
  attempts : Nat
  delays : List Nat
  outcome : LoopEnd
  deriving Repr, DecidableEq

/-- The source's per-batch retry loop.  `budget` is `MAX_RETRIES -
retries`, passed explicitly so the recursion is structural; `budget = 0`
with a non-empty map is exactly the guard `retries < MAX_RETRIES`
failing. -/
def batchLoopGo (oracle : Nat → BatchResp) (origLen : Nat) :
    Nat → Nat → Option (List Key) → BatchResult
  | _, _, none => { deletedAdd := 0, attempts := 0, delays := [], outcome := .done none }
  | 0, _, some l => { deletedAdd := 0, attempts := 0, delays := [], outcome := .done (some l) }
  | budget + 1, retries, some l =>
      match loopBody origLen l retries (oracle retries) with
      | .thrown => { deletedAdd := 0, attempts := 1, delays := [], outcome := .errored }
      | .next st r2 add dly =>
          let rest := batchLoopGo oracle origLen budget r2 st
          { deletedAdd := add + rest.deletedAdd
            attempts := 1 + rest.attempts
            delays := dly.toList ++ rest.delays
            outcome := rest.outcome }

/-- The retry loop as entered by `scanSegment`: `unprocessedItems`
starts as the whole batch, `retries` at 0, and the oracle gives the
store's response to each attempt (attempt index = current `retries`,
which rises by exactly one per continuing iteration). -/
def runBatchLoop (oracle : Nat → BatchResp) (origLen : Nat) (batch : List Key) : BatchResult :=
  batchLoopGo oracle origLen MAX_RETRIES 0 (some batch)

/-- The page-splitting `for (let i = 0; i < items.length; i += BATCH_SIZE)`
loop: the chunk at offset `i` is `items.slice(i, i + BATCH_SIZE)`,
i.e. `(items.drop i).take BATCH_SIZE`.  `fuel` bounds the number of
iterations so the recursion is structural; `chunkList` supplies
`items.length`, which is enough fuel since the offset advances by
`BATCH_SIZE ≥ 1` per iteration. -/
def sliceLoop (items : List Key) : Nat → Nat → List (List Key)
  | 0, _ => []
  | fuel + 1, i =>
      if i < items.length then
        (items.drop i).take BATCH_SIZE :: sliceLoop items fuel (i + BATCH_SIZE)
      else []

/-- The batches a scanned page is split into, in page order. -/
def chunkList (items : List Key) : List (List Key) :=
  sliceLoop items items.length 0

/-- Aggregate observables of deleting all chunks of one page. -/
structure ChunksResult where
  deletedAdd : Nat
  deleteCalls : Nat
  errored : Bool
  leftovers : List (List Key)
  deriving Repr, DecidableEq

/-- Runs the retry loop for each chunk of a page in order; a
non-retryable error stops the page (the remaining chunks are not
attempted) and is propagated via `errored`.  `leftovers` collects, per
normally-finished batch, the keys its loop left unprocessed. -/
def runChunksGo (oracle : Nat → Nat → BatchResp) : Nat → List (List Key) → ChunksResult
  | _, [] => { deletedAdd := 0, deleteCalls := 0, errored := false, leftovers := [] }
  | ci, c :: cs =>
      let r := runBatchLoop (oracle ci) c.length c
      match r.outcome with
      | .errored =>
          { deletedAdd := r.deletedAdd, deleteCalls := r.attempts
            errored := true, leftovers := [] }
      | .done u =>
          let rest := runChunksGo oracle (ci + 1) cs
          { deletedAdd := r.deletedAdd + rest.deletedAdd
            deleteCalls := r.attempts + rest.deleteCalls
            errored := rest.errored
            leftovers := u.toList ++ rest.leftovers }

/-- Aggregate observables of one worker's whole segment. -/
structure SegResult where
  scannedAdd : Nat
  deletedAdd : Nat
  scanCalls : Nat
  deleteCalls : Nat
  errored : Bool
  leftovers : List (List Key)
  deriving Repr, DecidableEq

/-- The source's `scanSegment` do/while over pages: each iteration
issues one `Scan` (counted by `scanCalls`), adds the page length to
`scanned` BEFORE deleting, splits the page with `chunkList`, and runs
the delete loops; a thrown non-retryable error aborts the segment (the
remaining pages are not scanned). -/
def scanSegmentGo (oracle : Nat → Nat → Nat → BatchResp) : Nat → List (List Key) → SegResult
  | _, [] =>
      { scannedAdd := 0, deletedAdd := 0, scanCalls := 0, deleteCalls := 0
        errored := false, leftovers := [] }
  | pg, p :: ps =>
      let cr := runChunksGo (oracle pg) 0 (chunkList p)
      if cr.errored then
        { scannedAdd := p.length, deletedAdd := cr.deletedAdd, scanCalls := 1
          deleteCalls := cr.deleteCalls, errored := true, leftovers := cr.leftovers }
      else
        let rest := scanSegmentGo oracle (pg + 1) ps
        { scannedAdd := p.length + rest.scannedAdd
          deletedAdd := cr.deletedAdd + rest.deletedAdd
          scanCalls := 1 + rest.scanCalls
          deleteCalls := cr.deleteCalls + rest.deleteCalls
          errored := rest.errored
          leftovers := cr.leftovers ++ rest.leftovers }

/-- `scanSegment` of the source, as a function of the segment's pages
and its delete oracle. -/
def scanSegment (oracle : Nat → Nat → Nat → BatchResp) (pages : List (List Key)) : SegResult :=
  scanSegmentGo oracle 0 pages

/-- The abstract store a purge run talks to. -/
structure Store where
  keySchema : Option (List KeySchemaElement)
  pages : Nat → List (List Key)
  oracle : Nat → Nat → Nat → Nat → BatchResp

/-- `PurgeOptions` of the source (the table name is implicit in the
store). -/
structure PurgeOptions where
  parallelSegments : Nat
  dryRun : Bool
  deriving Repr, DecidableEq

/-- The run-derived value printed by the final summary (`Total items
deleted`); elapsed time and average rate are wall-clock and not
modelled. -/
structure FinalSummary where
  totalDeleted : Nat
  deriving Repr, DecidableEq

/-- Terminal outcome of a successful `purgeTable` call. -/
inductive PurgeOutcome where
  | dryRunReport (keys : List TableKey)
  | completed (summary : FinalSummary)
  deriving Repr, DecidableEq

/-- Observable result of one `purgeTable` call: its return or throw,
the final shared counters, the network calls issued, and the ghost
record of keys every retry loop left unprocessed. -/
structure PurgeRun where
  result : Except PurgeError PurgeOutcome
  stats : PurgeStats
  scanCalls : Nat
  deleteCalls : Nat
  leftovers : List (List Key)

/-- The final summary as the source builds it: a function of the shared
counters only. -/
def finalSummary (stats : PurgeStats) : FinalSummary :=
  { totalDeleted := stats.deleted }

/-- `purgeTable` of the source: resolve the key schema (a throw there
aborts before any scan), report and return if dry-run, otherwise run
one `scanSegment` per segment against the shared counters and emit the
summary unless some worker threw. -/
def purgeTable (store : Store) (opts : PurgeOptions) : PurgeRun :=
  match getTableKeys store.keySchema with
  | .error e =>
      { result := .error e, stats := ⟨0, 0, 0⟩
        scanCalls := 0, deleteCalls := 0, leftovers := [] }
  | .ok keys =>
      if opts.dryRun then
        { result := .ok (.dryRunReport keys), stats := ⟨0, 0, 0⟩
          scanCalls := 0, deleteCalls := 0, leftovers := [] }
      else
        let segs := (List.range opts.parallelSegments).map
          (fun s => scanSegment (store.oracle s) (store.pages s))
        let stats : PurgeStats :=
          { scanned := (segs.map (·.scannedAdd)).sum
            deleted := (segs.map (·.deletedAdd)).sum
            startTime := 0 }
        { result :=
            if segs.any (·.errored) then .error .nonRetryableStoreError
            else .ok (.completed (finalSummary stats))
          stats := stats
          scanCalls := (segs.map (·.scanCalls)).sum
          deleteCalls := (segs.map (·.deleteCalls)).sum
          leftovers := (segs.map (·.leftovers)).flatten }

/-- Total number of keys a run left unprocessed after exhausting their
retry budgets (ghost observable; the source records no such value). -/
def unresolvedOf (r : PurgeRun) : Nat :=
  (r.leftovers.map List.length).sum

/-- Delete oracle of the C1 failing input: the first attempt reports
key 1 unprocessed, the second attempt reports none. -/
def oracleOnePartial : Nat → BatchResp :=
  fun a => if a = 0 then .ok [1] else .ok []

/-- Store of the C2 failing input: one segment, one page of two items,
deletes answered by `oracleOnePartial`. -/
def storeOvercount : Store :=
  { keySchema := some []
    pages := fun _ => [[0, 1]]
    oracle := fun _ _ _ a => if a = 0 then .ok [1] else .ok [] }

/-- Store whose delete calls always return the whole submitted batch as
unprocessed; table of two items. -/
def storeStuck2 : Store :=
  { keySchema := some []
    pages := fun _ => [[0, 1]]
    oracle := fun _ _ _ _ => .ok [0, 1] }

/-- Same store behaviour as `storeStuck2` over a table of three items. -/
def storeStuck3 : Store :=
  { keySchema := some []
    pages := fun _ => [[0, 1, 2]]
    oracle := fun _ _ _ _ => .ok [0, 1, 2] }

/-- Store with two segments: segment 0 hits a non-retryable error on its
first delete call, segment 1 deletes its single item cleanly. -/
def storeFatalSeg0 : Store :=
  { keySchema := some []
    pages := fun s => if s = 0 then [[0]] else [[7]]
    oracle := fun s _ _ _ => if s = 0 then .nonRetryable else .ok [] }

/-- Per-segment delete oracle that always throws a non-retryable error. -/
def oracleFatal : Nat → Nat → Nat → BatchResp := fun _ _ _ => .nonRetryable

/-- Store with a one-attribute key schema and a working delete path,
used to exercise the dry-run and schema claims. -/
def storeDry : Store :=
  { keySchema := some [{ AttributeName := "id", KeyType := "HASH" }]
    pages := fun _ => [[0, 1, 2]]
    oracle := fun _ _ _ _ => .ok [] }

/-- Store whose `DescribeTable` response carries no key schema. -/
def storeNoSchema : Store :=
  { keySchema := none
    pages := fun _ => [[0]]
    oracle := fun _ _ _ _ => .ok [] }

/-- The retry loop issues at most `budget` delete calls. -/
theorem batchLoopGo_attempts_le (oracle : Nat → BatchResp) (origLen : Nat) :
    ∀ (budget retries : Nat) (st : Option (List Key)),
      (batchLoopGo oracle origLen budget retries st).attempts ≤ budget := by
  intro budget
  induction budget with
  | zero =>
      intro r st
      cases st <;> simp [batchLoopGo]
  | succ b ih =>
      intro r st
      cases st with
      | none => simp [batchLoopGo]
      | some l =>
          simp only [batchLoopGo]
          cases h : loopBody origLen l r (oracle r) with
          | thrown => simp
          | next st2 r2 add dly =>
              simp only []
              have := ih r2 st2
              omega

/-- Splitting off the head of the delay schedule. -/
theorem range_map_shift (n r : Nat) :
    (List.range (n + 1)).map (fun i => 2 ^ (r + 1 + i) * BACKOFF_BASE_MS) =
      2 ^ (r + 1) * BACKOFF_BASE_MS ::
        (List.range n).map (fun i => 2 ^ (r + 1 + 1 + i) * BACKOFF_BASE_MS) := by
  rw [List.range_succ_eq_map, List.map_cons, List.map_map]
  refine congrArg (List.cons _) ?_
  apply List.map_congr_left
  intro a _
  simp only [Function.comp_apply, Nat.succ_eq_add_one]
  have he : r + 1 + (a + 1) = r + 1 + 1 + a := by omega
  rw [he]

/-- The recorded delays of a retry loop started at `retries` are exactly
`base * 2 ^ (retries + 1 + i)` for consecutive `i`. -/
theorem batchLoopGo_delays (oracle : Nat → BatchResp) (origLen : Nat) :
    ∀ (budget retries : Nat) (st : Option (List Key)),
      (batchLoopGo oracle origLen budget retries st).delays =
        (List.range (batchLoopGo oracle origLen budget retries st).delays.length).map
          (fun i => 2 ^ (retries + 1 + i) * BACKOFF_BASE_MS) := by
  intro budget
  induction budget with
  | zero =>
      intro r st
      cases st <;> simp [batchLoopGo]
  | succ b ih =>
      intro r st
      cases st with
      | none => simp [batchLoopGo]
      | some l =>
          cases hresp : oracle r with
          | nonRetryable => simp [batchLoopGo, loopBody, hresp]
          | throttled =>
              have hb : loopBody origLen l r (oracle r) =
                  .next (some l) (r + 1) 0 (some (2 ^ (r + 1) * BACKOFF_BASE_MS)) := by
                simp [loopBody, hresp]
              have h := ih (r + 1) (some l)
              simp only [batchLoopGo, hb, Option.toList, List.cons_append, List.nil_append,
                List.length_cons]
              rw [range_map_shift, h]
              simp only [List.length_map, List.length_range]
          | ok u =>
              by_cases hu : u.isEmpty
              · simp [batchLoopGo, loopBody, hresp, hu]
              · have hb : loopBody origLen l r (oracle r) =
                    .next (some u) (r + 1) (origLen - u.length)
                      (some (2 ^ (r + 1) * BACKOFF_BASE_MS)) := by
                  simp [loopBody, hresp, hu]
                have h := ih (r + 1) (some u)
                simp only [batchLoopGo, hb, Option.toList, List.cons_append, List.nil_append,
                  List.length_cons]
                rw [range_map_shift, h]
                simp only [List.length_map, List.length_range]

/-- With enough fuel, the slicing loop started at offset `i` covers
exactly the suffix of the page from `i` on. -/
theorem sliceLoop_flatten (items : List Key) :
    ∀ (fuel i : Nat), items.length - i ≤ fuel →
      (sliceLoop items fuel i).flatten = items.drop i := by
  intro fuel
  induction fuel with
  | zero =>
      intro i h
      simp only [sliceLoop, List.flatten_nil]
      exact (List.drop_eq_nil_of_le (by omega)).symm
  | succ f ih =>
      intro i h
      by_cases hi : i < items.length
      · simp only [sliceLoop, hi, if_true, List.flatten_cons]
        rw [ih (i + BATCH_SIZE) (by simp [BATCH_SIZE] at h ⊢; omega)]
        have hd : items.drop (i + BATCH_SIZE) = (items.drop i).drop BATCH_SIZE := by
          rw [List.drop_drop]
        rw [hd, List.take_append_drop]
      · simp only [sliceLoop, hi, if_false]
        simp only [List.flatten_nil]
        exact (List.drop_eq_nil_of_le (by omega)).symm

/-- Every chunk the slicing loop produces is non-empty and no longer
than `BATCH_SIZE`. -/
theorem sliceLoop_mem (items : List Key) :
    ∀ (fuel i : Nat), ∀ c ∈ sliceLoop items fuel i, c ≠ [] ∧ c.length ≤ BATCH_SIZE := by
  intro fuel
  induction fuel with
  | zero =>
      intro i c hc
      simp [sliceLoop] at hc
  | succ f ih =>
      intro i c hc
      by_cases hi : i < items.length
      · simp only [sliceLoop, hi, if_true, List.mem_cons] at hc
        rcases hc with hc | hc
        · subst hc
          constructor
          · have hlen : ((items.drop i).take BATCH_SIZE).length = min BATCH_SIZE (items.drop i).length := by
              rw [List.length_take]
            have hpos : 0 < ((items.drop i).take BATCH_SIZE).length := by
              rw [hlen, List.length_drop]
              have : 0 < BATCH_SIZE := by simp [BATCH_SIZE]
              omega
            exact List.ne_nil_of_length_pos hpos
          · rw [List.length_take]
            omega
        · exact ih (i + BATCH_SIZE) c hc
      · simp [sliceLoop, hi] at hc

/-- C1: evaluation of the code at the failing input.  For a 2-key batch
whose first delete attempt leaves one key unprocessed and whose second
attempt succeeds, the loop adds 1 + 2 = 3 to `deleted` although the
batch held 2 keys and none remained unprocessed: the claimed total
(batch size minus final unprocessed count = 2 - 0) is violated because
every attempt's increment counts against the ORIGINAL batch length,
re-counting already-counted keys. -/
theorem C1_deleted_overcount :
    (runBatchLoop oracleOnePartial 2 [0, 1]).deletedAdd = 3 ∧
    (runBatchLoop oracleOnePartial 2 [0, 1]).outcome = LoopEnd.done none ∧
    (3 : Nat) ≠ 2 - 0 :=
  ⟨rfl, rfl, by decide⟩

/-- C2: evaluation of the code at the failing input.  A one-segment run
over a single page of two items, with the delete behaviour of C1, ends
with `scanned = 2` but `deleted = 3`: the invariant `deleted ≤ scanned`
is violated at the final observation point of `PurgeStats`. -/
theorem C2_deleted_exceeds_scanned :
    (purgeTable storeOvercount { parallelSegments := 1, dryRun := false }).stats.scanned = 2 ∧
    (purgeTable storeOvercount { parallelSegments := 1, dryRun := false }).stats.deleted = 3 ∧
    ¬(3 ≤ 2) :=
  ⟨rfl, rfl, by decide⟩

/-- C3: counterexample.  On the C1 input the single recorded backoff
delay is `2 ^ 1 * BACKOFF_BASE_MS = 200` ms, but the claimed formula
gives `min(cap, BACKOFF_BASE_MS * 2 ^ 0) ≤ 100` ms for the first retry
whatever the cap: the code increments `retries` before computing the
delay and applies no cap. -/
theorem C3_first_delay_not_base :
    (runBatchLoop oracleOnePartial 2 [0, 1]).delays = [200] ∧
    ¬(200 ≤ BACKOFF_BASE_MS * 2 ^ 0) :=
  ⟨rfl, by decide⟩

/-- C3 (amended): the recorded delay before the r-th retry of a batch
(r = 1, 2, ...) is exactly `2 ^ r * BACKOFF_BASE_MS` -- the retry
counter is incremented before the delay is computed, so the first retry
waits twice the base -- and no cap is applied. -/
theorem C3_delay_schedule (oracle : Nat → BatchResp) (origLen : Nat) (batch : List Key) :
    (runBatchLoop oracle origLen batch).delays =
      (List.range (runBatchLoop oracle origLen batch).delays.length).map
        (fun i => 2 ^ (i + 1) * BACKOFF_BASE_MS) := by
  have h := batchLoopGo_delays oracle origLen MAX_RETRIES 0 (some batch)
  have hf : (fun i => 2 ^ (0 + 1 + i) * BACKOFF_BASE_MS)
      = (fun i => 2 ^ (i + 1) * BACKOFF_BASE_MS) := by
    funext i
    have he : 0 + 1 + i = i + 1 := by omega
    rw [he]
  rw [hf] at h
  simpa only [runBatchLoop] using h

/-- C4: counterexample.  Two runs that exhaust the retry budget with
different numbers of unresolved keys (2 vs 3) produce identical final
summaries: the summary is built from the counters alone and carries no
unresolved-key count, so it cannot list "exactly that batch's remaining
key count". -/
theorem C4_summary_blind_to_unresolved :
    finalSummary (purgeTable storeStuck2 { parallelSegments := 1, dryRun := false }).stats =
      finalSummary (purgeTable storeStuck3 { parallelSegments := 1, dryRun := false }).stats ∧
    unresolvedOf (purgeTable storeStuck2 { parallelSegments := 1, dryRun := false }) = 2 ∧
    unresolvedOf (purgeTable storeStuck3 { parallelSegments := 1, dryRun := false }) = 3 ∧
    (2 : Nat) ≠ 3 :=
  ⟨rfl, rfl, rfl, by decide⟩

/-- C4 (amended): keys still unprocessed when the retry budget is
exhausted stop being retried, but the final summary is a function of
the `deleted` counter alone; it carries no unresolved-key count, so
those keys are silently dropped from the report. -/
theorem C4_summary_function_of_deleted (s1 s2 : PurgeStats)
    (h : s1.deleted = s2.deleted) : finalSummary s1 = finalSummary s2 := by
  simp [finalSummary, h]

/-- Witness for `C4_summary_function_of_deleted` at concrete stats. -/
theorem C4_summary_function_of_deleted_app :
    finalSummary ⟨5, 3, 0⟩ = finalSummary ⟨7, 3, 1⟩ :=
  C4_summary_function_of_deleted ⟨5, 3, 0⟩ ⟨7, 3, 1⟩ rfl

/-- C5: counterexample.  With two segments where segment 0 throws a
non-retryable error and segment 1 finishes cleanly, the joint wait
rejects: the run returns the error and produces no final summary, so
the run does NOT "still report". -/
theorem C5_run_does_not_report :
    (purgeTable storeFatalSeg0 { parallelSegments := 2, dryRun := false }).result =
      Except.error PurgeError.nonRetryableStoreError ∧
    (scanSegment (storeFatalSeg0.oracle 1) (storeFatalSeg0.pages 1)).errored = false :=
  ⟨rfl, rfl⟩

/-- C5 (amended): a non-retryable delete error aborts the owning
segment -- once a page's delete loop throws, the remaining pages of
that segment are never scanned -- and propagates through the joint
wait: whenever any spawned segment aborts, the run ends in the error
and no final summary is produced. -/
theorem C5_fatal_aborts_segment_and_run :
    (∀ (oracle : Nat → Nat → Nat → BatchResp) (p : List Key) (ps : List (List Key)),
        (runChunksGo (oracle 0) 0 (chunkList p)).errored = true →
        scanSegment oracle (p :: ps) = scanSegment oracle [p]) ∧
    (∀ (store : Store) (opts : PurgeOptions) (s : Nat),
        opts.dryRun = false →
        store.keySchema ≠ none →
        s < opts.parallelSegments →
        (scanSegment (store.oracle s) (store.pages s)).errored = true →
        (purgeTable store opts).result = Except.error PurgeError.nonRetryableStoreError) := by
  constructor
  · intro oracle p ps herr
    simp [scanSegment, scanSegmentGo, herr]
  · intro store opts s hdry hks hlt herr
    cases hsk : store.keySchema with
    | none => exact absurd hsk hks
    | some ks =>
        have hany : ((List.range opts.parallelSegments).map
            (fun t => scanSegment (store.oracle t) (store.pages t))).any (·.errored) = true := by
          rw [List.any_eq_true]
          exact ⟨scanSegment (store.oracle s) (store.pages s),
            List.mem_map.mpr ⟨s, List.mem_range.mpr hlt, rfl⟩, herr⟩
        simp [purgeTable, getTableKeys, hsk, hdry, hany]

/-- Witness for `C5_fatal_aborts_segment_and_run` at concrete inputs. -/
theorem C5_fatal_aborts_witness :
    scanSegment oracleFatal [[0], [9]] = scanSegment oracleFatal [[0]] ∧
    (purgeTable storeFatalSeg0 { parallelSegments := 2, dryRun := false }).result =
      Except.error PurgeError.nonRetryableStoreError :=
  ⟨C5_fatal_aborts_segment_and_run.1 oracleFatal [0] [[9]] rfl,
   C5_fatal_aborts_segment_and_run.2 storeFatalSeg0 { parallelSegments := 2, dryRun := false } 0
     rfl (by decide) (by decide) rfl⟩

/-- C6: if the dry-run flag is set (and the schema resolves), the run
issues zero scan and zero delete calls whatever the table holds, and
returns successfully, with the schema report and zero deletions. -/
theorem C6_dry_run_no_deletes (store : Store) (opts : PurgeOptions)
    (ks : List KeySchemaElement) (hks : store.keySchema = some ks)
    (hdry : opts.dryRun = true) :
    (purgeTable store opts).deleteCalls = 0 ∧
    (purgeTable store opts).scanCalls = 0 ∧
    (purgeTable store opts).stats.deleted = 0 ∧
    (purgeTable store opts).result = Except.ok (PurgeOutcome.dryRunReport
      (ks.map fun k => { attributeName := k.AttributeName, keyType := k.KeyType })) := by
  simp [purgeTable, getTableKeys, hks, hdry]

/-- Witness for `C6_dry_run_no_deletes` at a concrete store. -/
theorem C6_dry_run_witness :
    (purgeTable storeDry { parallelSegments := 4, dryRun := true }).deleteCalls = 0 ∧
    (purgeTable storeDry { parallelSegments := 4, dryRun := true }).scanCalls = 0 ∧
    (purgeTable storeDry { parallelSegments := 4, dryRun := true }).stats.deleted = 0 ∧
    (purgeTable storeDry { parallelSegments := 4, dryRun := true }).result =
      Except.ok (PurgeOutcome.dryRunReport [{ attributeName := "id", keyType := "HASH" }]) :=
  C6_dry_run_no_deletes storeDry { parallelSegments := 4, dryRun := true }
    [{ AttributeName := "id", KeyType := "HASH" }] rfl rfl

/-- C7: with no key schema the run fails with the schema-unavailable
error before any scan or delete call is issued (nothing mutated); with
a schema, the resolver returns the store's key attributes in order. -/
theorem C7_schema_gate (store : Store) (opts : PurgeOptions) :
    (store.keySchema = none →
      (purgeTable store opts).result = Except.error PurgeError.schemaUnavailable ∧
      (purgeTable store opts).scanCalls = 0 ∧
      (purgeTable store opts).deleteCalls = 0 ∧
      (purgeTable store opts).stats.deleted = 0) ∧
    (∀ ks, store.keySchema = some ks →
      getTableKeys store.keySchema = Except.ok
        (ks.map fun k => { attributeName := k.AttributeName, keyType := k.KeyType })) := by
  constructor
  · intro h
    simp [purgeTable, getTableKeys, h]
  · intro ks h
    simp [getTableKeys, h]

/-- Witness for `C7_schema_gate` at concrete stores. -/
theorem C7_schema_gate_app :
    ((purgeTable storeNoSchema { parallelSegments := 2, dryRun := false }).result =
        Except.error PurgeError.schemaUnavailable ∧
      (purgeTable storeNoSchema { parallelSegments := 2, dryRun := false }).scanCalls = 0 ∧
      (purgeTable storeNoSchema { parallelSegments := 2, dryRun := false }).deleteCalls = 0 ∧
      (purgeTable storeNoSchema { parallelSegments := 2, dryRun := false }).stats.deleted = 0) ∧
    getTableKeys storeDry.keySchema =
      Except.ok [{ attributeName := "id", keyType := "HASH" }] :=
  ⟨(C7_schema_gate storeNoSchema { parallelSegments := 2, dryRun := false }).1 rfl,
   (C7_schema_gate storeDry { parallelSegments := 2, dryRun := false }).2
     [{ AttributeName := "id", KeyType := "HASH" }] rfl⟩

/-- C8: the throttling exception is handled by the same loop step as a
response returning the whole submitted list unprocessed: both increment
`retries` to the same value, record the same backoff delay
`2 ^ (retries + 1) * BACKOFF_BASE_MS`, and carry exactly the submitted
keys into the next attempt. -/
theorem C8_throttle_like_unprocessed (origLen : Nat) (l : List Key) (r : Nat)
    (h : l ≠ []) :
    loopBody origLen l r BatchResp.throttled =
      StepRes.next (some l) (r + 1) 0 (some (2 ^ (r + 1) * BACKOFF_BASE_MS)) ∧
    loopBody origLen l r (BatchResp.ok l) =
      StepRes.next (some l) (r + 1) (origLen - l.length)
        (some (2 ^ (r + 1) * BACKOFF_BASE_MS)) := by
  obtain ⟨a, as, rfl⟩ := List.exists_cons_of_ne_nil h
  exact ⟨rfl, rfl⟩

/-- Witness for `C8_throttle_like_unprocessed`. -/
theorem C8_throttle_like_unprocessed_app :
    loopBody 2 [5] 1 BatchResp.throttled = StepRes.next (some [5]) 2 0 (some 400) ∧
    loopBody 2 [5] 1 (BatchResp.ok [5]) = StepRes.next (some [5]) 2 1 (some 400) :=
  C8_throttle_like_unprocessed 2 [5] 1 (by decide)

/-- C9: each scanned page is split into consecutive batches of at most
`BATCH_SIZE` = 25 keys that together cover the page exactly once and in
order (their concatenation is the page), every batch non-empty. -/
theorem C9_page_batching (items : List Key) :
    (chunkList items).flatten = items ∧
    ∀ c ∈ chunkList items, c ≠ [] ∧ c.length ≤ BATCH_SIZE := by
  constructor
  · have h := sliceLoop_flatten items items.length 0 (by omega)
    simpa [chunkList] using h
  · intro c hc
    exact sliceLoop_mem items items.length 0 c hc

/-- Witness for `C9_page_batching` at a concrete page. -/
theorem C9_page_batching_app :
    (chunkList [0, 1, 2]).flatten = [0, 1, 2] ∧
    ([0, 1, 2] ≠ [] ∧ ([0, 1, 2] : List Key).length ≤ BATCH_SIZE) :=
  ⟨(C9_page_batching [0, 1, 2]).1, (C9_page_batching [0, 1, 2]).2 [0, 1, 2] (by decide)⟩

/-- C10: every batch's retry loop issues at most `MAX_RETRIES` = 5
delete attempts in total (the initial attempt plus at most four
retries), for every store behaviour; the loop is a total function of
the responses, so it terminates. -/
theorem C10_attempts_bounded (oracle : Nat → BatchResp) (origLen : Nat) (batch : List Key) :
    (runBatchLoop oracle origLen batch).attempts ≤ MAX_RETRIES := by
  simpa only [runBatchLoop] using
    batchLoopGo_attempts_le oracle origLen MAX_RETRIES 0 (some batch)

end Purge
